import Mathlib

/-!
Verification of the Potentiometer/Ultrasonic monitoring application
(`MonitoringApp.py`): a shallow embedding of its pure computations
(frequency mapping, color mapping), of the gesture-driven mode state
machine (`get_mode`), of the recording buffer/flush logic of `run_mode`,
and of the busy-wait structure of `sonic`, together with theorems about
the documented behaviour.

Distances, percentages, frequencies and timestamps are modelled as
rationals (the Python floats carry exact decimal values in all the
relevant computations; no rounding behaviour is at stake in the claims).
-/

/-! ## Constants from MonitoringApp.py -/

def MIN_DIST : ℚ := 4
def MAX_DIST : ℚ := 20
def MIN_FREQ : ℚ := 100
def MAX_FREQ : ℚ := 2000

/-- Source constant VIOLET_RATIO = 0.75: conversion rate for the
potentiometer percentage to stop the LED sweep at violet. -/
def VIOLET_SCALE : ℚ := 3/4

def BUFFER_SIZE : ℕ := 250

def RDM_TIME : ℚ := 1
def ORD_TIME : ℚ := 2

def MS_MODE : ℕ := 1
def RDM_MODE : ℕ := 2
def ORD_MODE : ℕ := 3

/-! ## frequency (MonitoringApp.py lines 194-220)

`frequency(distance)` returns `None` beyond MAX_DIST, MAX_FREQ below
MIN_DIST, and otherwise interpolates linearly.  In Python the final
branch assigns `freq` only under a (redundant) range re-check; were that
check false the function would raise UnboundLocalError, modelled here as
`none` (the check is provably true on that branch). -/

def frequency (distance : ℚ) : Option ℚ :=
  if distance > MAX_DIST then
    none
  else if distance < MIN_DIST then
    some MAX_FREQ
  else
    let freq_proportion := (distance - MIN_DIST) / (MAX_DIST - MIN_DIST)
    if distance ≤ MAX_DIST ∧ distance ≥ MIN_DIST then
      some (MAX_FREQ - freq_proportion * (MAX_FREQ - MIN_FREQ))
    else
      none

/-- Python truthiness of an optional float: `if freq:` is False exactly
when `freq` is `None` or `freq == 0`.  This is the guard used before
`buzz.ChangeFrequency(freq)` in `buzzer()` (line 242) and in
`run_mode()` (line 569). -/
def pyTruthy : Option ℚ → Bool
  | none => false
  | some x => decide (x ≠ 0)

/-- Claim C1: for every distance d, `frequency` returns None for d > 20,
2000 for d < 4, and the linear interpolation
2000 - (d-4)/(20-4) * (2000-100) for 4 ≤ d ≤ 20; in particular
frequency 4 = 2000 and frequency 20 = 100, and on [4,20] the result is
monotonically non-increasing in d. -/
theorem C1_frequency_piecewise :
    (∀ d : ℚ, d > 20 → frequency d = none) ∧
    (∀ d : ℚ, d < 4 → frequency d = some 2000) ∧
    (∀ d : ℚ, 4 ≤ d → d ≤ 20 →
      frequency d = some (2000 - (d - 4) / (20 - 4) * (2000 - 100))) ∧
    frequency 4 = some 2000 ∧
    frequency 20 = some 100 ∧
    (∀ d₁ d₂ f₁ f₂ : ℚ, 4 ≤ d₁ → d₁ ≤ d₂ → d₂ ≤ 20 →
      frequency d₁ = some f₁ → frequency d₂ = some f₂ → f₂ ≤ f₁) := by
  have hval : ∀ d : ℚ, 4 ≤ d → d ≤ 20 →
      frequency d = some (2000 - (d - 4) / (20 - 4) * (2000 - 100)) := by
    intro d h4 h20
    unfold frequency MIN_DIST MAX_DIST MIN_FREQ MAX_FREQ
    rw [if_neg (by linarith), if_neg (by linarith), if_pos ⟨h20, h4⟩]
  refine ⟨?_, ?_, hval, ?_, ?_, ?_⟩
  · intro d hd
    unfold frequency MAX_DIST
    rw [if_pos hd]
  · intro d hd
    unfold frequency MIN_DIST MAX_DIST MAX_FREQ
    rw [if_neg (by linarith), if_pos hd]
  · rw [hval 4 (by norm_num) (by norm_num)]; norm_num
  · rw [hval 20 (by norm_num) (by norm_num)]; norm_num
  · intro d₁ d₂ f₁ f₂ h1 h12 h2 hf1 hf2
    rw [hval d₁ h1 (by linarith)] at hf1
    rw [hval d₂ (by linarith) h2] at hf2
    have e1 : f₁ = 2000 - (d₁ - 4) / 16 * 1900 := by
      have := Option.some.inj hf1; linarith [this.symm]
    have e2 : f₂ = 2000 - (d₂ - 4) / 16 * 1900 := by
      have := Option.some.inj hf2; linarith [this.symm]
    rw [e1, e2]
    have : (d₁ - 4) / 16 * 1900 ≤ (d₂ - 4) / 16 * 1900 := by
      have : d₁ - 4 ≤ d₂ - 4 := by linarith
      nlinarith
    linarith

/-- Witness for C1 at concrete distances 25, 1, 7 and the pair (5, 10). -/
theorem C1_frequency_piecewise_witness :
    frequency 25 = none ∧
    frequency 1 = some 2000 ∧
    frequency 7 = some (2000 - (7 - 4) / (20 - 4) * (2000 - 100)) ∧
    ((2000 : ℚ) - (10 - 4) / (20 - 4) * (2000 - 100)) ≤
      (2000 - (5 - 4) / (20 - 4) * (2000 - 100)) :=
  ⟨C1_frequency_piecewise.1 25 (by norm_num),
   C1_frequency_piecewise.2.1 1 (by norm_num),
   C1_frequency_piecewise.2.2.1 7 (by norm_num) (by norm_num),
   C1_frequency_piecewise.2.2.2.2.2 5 10
     (2000 - (5 - 4) / (20 - 4) * (2000 - 100))
     (2000 - (10 - 4) / (20 - 4) * (2000 - 100))
     (by norm_num) (by norm_num) (by norm_num)
     (C1_frequency_piecewise.2.2.1 5 (by norm_num) (by norm_num))
     (C1_frequency_piecewise.2.2.1 10 (by norm_num) (by norm_num))⟩

/-- Claim C10: `frequency d` is either None or a value in [100, 2000]
(never 0), so the truthiness guard `if freq:` used before
`buzz.ChangeFrequency` coincides with an explicit `freq is not None`
check and never skips a valid frequency. -/
theorem C10_truthiness_guard :
    ∀ d : ℚ, pyTruthy (frequency d) = (frequency d).isSome ∧
      (∀ f : ℚ, frequency d = some f → 100 ≤ f ∧ f ≤ 2000) := by
  intro d
  have hrange : ∀ f : ℚ, frequency d = some f → 100 ≤ f ∧ f ≤ 2000 := by
    intro f hf
    unfold frequency MIN_DIST MAX_DIST MIN_FREQ MAX_FREQ at hf
    by_cases h1 : d > 20
    · rw [if_pos h1] at hf; exact absurd hf (by simp)
    · rw [if_neg h1] at hf
      by_cases h2 : d < 4
      · rw [if_pos h2] at hf
        have := Option.some.inj hf
        constructor <;> linarith [this.symm]
      · rw [if_neg h2] at hf
        push_neg at h1 h2
        rw [if_pos ⟨h1, h2⟩] at hf
        have := (Option.some.inj hf).symm
        constructor
        · have : (d - 4) / (20 - 4) * (2000 - 100) ≤ 1900 := by
            have hd : d - 4 ≤ 16 := by linarith
            nlinarith
          linarith
        · have : 0 ≤ (d - 4) / (20 - 4) * (2000 - 100) := by
            have hd : 0 ≤ d - 4 := by linarith
            positivity
          linarith
  refine ⟨?_, hrange⟩
  cases hf : frequency d with
  | none => simp [pyTruthy]
  | some f =>
      have hr := hrange f hf
      simp only [pyTruthy, Option.isSome_some]
      simp only [decide_eq_true_eq]
      intro h0
      rw [h0] at hr
      linarith [hr.1]

/-- Witness for C10 at distance 10. -/
theorem C10_truthiness_guard_witness :
    (100 : ℚ) ≤ 2575/2 ∧ (2575/2 : ℚ) ≤ 2000 :=
  (C10_truthiness_guard 10).2 (2575/2) (by
    rw [(C1_frequency_piecewise.2.2.1 10 (by norm_num) (by norm_num))]
    norm_num)

/-! ## get_color (MonitoringApp.py lines 271-320)

The Python function first rescales `percent` by VIOLET_RATIO (0.75) and
then runs a six-branch if/elif chain; each branch assigns the three
channels.  If no branch fired, `red`/`green`/`blue` would be unbound
(UnboundLocalError), modelled as `none`.  The sixth guard compares the
0-100-scaled value against `5/6` (not `100 * 5/6`), exactly as in the
source. -/

def get_color (percent : ℚ) : Option (ℚ × ℚ × ℚ) :=
  if percent * VIOLET_SCALE ≤ 100 * (1/6) then
    some (1, percent * VIOLET_SCALE / (100 * (1/6)), 0)
  else if 100 * (1/6) < percent * VIOLET_SCALE ∧ percent * VIOLET_SCALE ≤ 100 * (2/6) then
    some (1 - (percent * VIOLET_SCALE - 100 * (1/6)) / (100 * (1/6)), 1, 0)
  else if 100 * (2/6) < percent * VIOLET_SCALE ∧ percent * VIOLET_SCALE ≤ 100 * (3/6) then
    some (0, 1, (percent * VIOLET_SCALE - 100 * (2/6)) / (100 * (1/6)))
  else if 100 * (3/6) < percent * VIOLET_SCALE ∧ percent * VIOLET_SCALE ≤ 100 * (4/6) then
    some (0, 1 - (percent * VIOLET_SCALE - 100 * (3/6)) / (100 * (1/6)), 1)
  else if 100 * (4/6) < percent * VIOLET_SCALE ∧ percent * VIOLET_SCALE ≤ 100 * (5/6) then
    some ((percent * VIOLET_SCALE - 100 * (4/6)) / (100 * (1/6)), 0, 1)
  else if percent * VIOLET_SCALE > 5/6 then
    some (1, 0, 1 - (percent * VIOLET_SCALE - 100 * (5/6)) / (100 * (1/6)))
  else
    none

/-- Same chain truncated after the fifth branch: the result obtained
without ever consulting the sixth guard. -/
def get_color_first_five (percent : ℚ) : Option (ℚ × ℚ × ℚ) :=
  if percent * VIOLET_SCALE ≤ 100 * (1/6) then
    some (1, percent * VIOLET_SCALE / (100 * (1/6)), 0)
  else if 100 * (1/6) < percent * VIOLET_SCALE ∧ percent * VIOLET_SCALE ≤ 100 * (2/6) then
    some (1 - (percent * VIOLET_SCALE - 100 * (1/6)) / (100 * (1/6)), 1, 0)
  else if 100 * (2/6) < percent * VIOLET_SCALE ∧ percent * VIOLET_SCALE ≤ 100 * (3/6) then
    some (0, 1, (percent * VIOLET_SCALE - 100 * (2/6)) / (100 * (1/6)))
  else if 100 * (3/6) < percent * VIOLET_SCALE ∧ percent * VIOLET_SCALE ≤ 100 * (4/6) then
    some (0, 1 - (percent * VIOLET_SCALE - 100 * (3/6)) / (100 * (1/6)), 1)
  else if 100 * (4/6) < percent * VIOLET_SCALE ∧ percent * VIOLET_SCALE ≤ 100 * (5/6) then
    some ((percent * VIOLET_SCALE - 100 * (4/6)) / (100 * (1/6)), 0, 1)
  else
    none

/-- Which branch of the if/elif chain in `get_color` fires (1-6, or 0 for
the fall-through where no branch assigns the channels). -/
def get_color_branch (percent : ℚ) : ℕ :=
  if percent * VIOLET_SCALE ≤ 100 * (1/6) then 1
  else if 100 * (1/6) < percent * VIOLET_SCALE ∧ percent * VIOLET_SCALE ≤ 100 * (2/6) then 2
  else if 100 * (2/6) < percent * VIOLET_SCALE ∧ percent * VIOLET_SCALE ≤ 100 * (3/6) then 3
  else if 100 * (3/6) < percent * VIOLET_SCALE ∧ percent * VIOLET_SCALE ≤ 100 * (4/6) then 4
  else if 100 * (4/6) < percent * VIOLET_SCALE ∧ percent * VIOLET_SCALE ≤ 100 * (5/6) then 5
  else if percent * VIOLET_SCALE > 5/6 then 6
  else 0

/-- For a percentage in [0,100] the scaled value lies in [0,75], so the
first five guards cannot all fail. -/
lemma scaled_in_first_five (p : ℚ) (_h0 : 0 ≤ p) (h100 : p ≤ 100)
    (h1 : ¬(p * VIOLET_SCALE ≤ 100 * (1/6)))
    (h2 : ¬(100 * (1/6) < p * VIOLET_SCALE ∧ p * VIOLET_SCALE ≤ 100 * (2/6)))
    (h3 : ¬(100 * (2/6) < p * VIOLET_SCALE ∧ p * VIOLET_SCALE ≤ 100 * (3/6)))
    (h4 : ¬(100 * (3/6) < p * VIOLET_SCALE ∧ p * VIOLET_SCALE ≤ 100 * (4/6)))
    (h5 : ¬(100 * (4/6) < p * VIOLET_SCALE ∧ p * VIOLET_SCALE ≤ 100 * (5/6))) :
    False := by
  unfold VIOLET_SCALE at *
  have s1 : 100 * (1/6 : ℚ) < p * (3/4) := not_le.mp h1
  have s2 : 100 * (2/6 : ℚ) < p * (3/4) := by
    by_contra hc; push_neg at hc; exact h2 ⟨s1, hc⟩
  have s3 : 100 * (3/6 : ℚ) < p * (3/4) := by
    by_contra hc; push_neg at hc; exact h3 ⟨s2, hc⟩
  have s4 : 100 * (4/6 : ℚ) < p * (3/4) := by
    by_contra hc; push_neg at hc; exact h4 ⟨s3, hc⟩
  have s5 : 100 * (5/6 : ℚ) < p * (3/4) := by
    by_contra hc; push_neg at hc; exact h5 ⟨s4, hc⟩
  nlinarith

/-- Claim C6: for every percentage p in [0,100], `get_color p` returns a
triple with every channel in [0,1]; `get_color 0 = (1,0,0)` (red) and
`get_color 100 = (1/2, 0, 1)` (violet after the 0.75 scaling). -/
theorem C6_get_color_contract :
    (∀ p : ℚ, 0 ≤ p → p ≤ 100 → ∃ r g b : ℚ,
        get_color p = some (r, g, b) ∧
        0 ≤ r ∧ r ≤ 1 ∧ 0 ≤ g ∧ g ≤ 1 ∧ 0 ≤ b ∧ b ≤ 1) ∧
    get_color 0 = some (1, 0, 0) ∧
    get_color 100 = some (1/2, 0, 1) := by
  have key : ∀ x : ℚ, 0 ≤ x → x ≤ 100 * (1/6) →
      0 ≤ x / (100 * (1/6)) ∧ x / (100 * (1/6)) ≤ 1 := by
    intro x hx0 hx1
    constructor
    · positivity
    · rw [div_le_one (by norm_num)]; exact hx1
  refine ⟨?_, ?_, ?_⟩
  · intro p h0 h100
    unfold get_color
    split_ifs with h1 h2 h3 h4 h5 h6
    · have hs0 : (0:ℚ) ≤ p * VIOLET_SCALE := by unfold VIOLET_SCALE; positivity
      obtain ⟨k0, k1⟩ := key (p * VIOLET_SCALE) hs0 h1
      exact ⟨_, _, _, rfl, by norm_num, by norm_num, k0, k1, by norm_num, by norm_num⟩
    · obtain ⟨hl, hr⟩ := h2
      obtain ⟨k0, k1⟩ := key (p * VIOLET_SCALE - 100 * (1/6)) (by linarith) (by linarith)
      exact ⟨_, _, _, rfl, by linarith, by linarith, by norm_num, by norm_num,
        by norm_num, by norm_num⟩
    · obtain ⟨hl, hr⟩ := h3
      obtain ⟨k0, k1⟩ := key (p * VIOLET_SCALE - 100 * (2/6)) (by linarith) (by linarith)
      exact ⟨_, _, _, rfl, by norm_num, by norm_num, by norm_num, by norm_num, k0, k1⟩
    · obtain ⟨hl, hr⟩ := h4
      obtain ⟨k0, k1⟩ := key (p * VIOLET_SCALE - 100 * (3/6)) (by linarith) (by linarith)
      exact ⟨_, _, _, rfl, by norm_num, by norm_num, by linarith, by linarith,
        by norm_num, by norm_num⟩
    · obtain ⟨hl, hr⟩ := h5
      obtain ⟨k0, k1⟩ := key (p * VIOLET_SCALE - 100 * (4/6)) (by linarith) (by linarith)
      exact ⟨_, _, _, rfl, k0, k1, by norm_num, by norm_num, by norm_num, by norm_num⟩
    · exact (scaled_in_first_five p h0 h100 h1 h2 h3 h4 h5).elim
    · exact (scaled_in_first_five p h0 h100 h1 h2 h3 h4 h5).elim
  · unfold get_color VIOLET_SCALE
    norm_num
  · unfold get_color VIOLET_SCALE
    norm_num

/-- Witness for C6 at percentage 50. -/
theorem C6_get_color_contract_witness :
    ∃ r g b : ℚ, get_color 50 = some (r, g, b) ∧
      0 ≤ r ∧ r ≤ 1 ∧ 0 ≤ g ∧ g ≤ 1 ∧ 0 ≤ b ∧ b ≤ 1 :=
  C6_get_color_contract.1 50 (by norm_num) (by norm_num)

/-- Claim C7: for every percent in [0,100], evaluation of `get_color`
never reaches the sixth branch (the one guarded by `percent > 5/6`):
the first five branches already decide the result, so `get_color`
coincides with the chain truncated after five branches and is total on
[0,100]. -/
theorem C7_sixth_branch_never_taken :
    ∀ p : ℚ, 0 ≤ p → p ≤ 100 →
      get_color_branch p ≠ 6 ∧
      1 ≤ get_color_branch p ∧ get_color_branch p ≤ 5 ∧
      get_color p = get_color_first_five p ∧
      (get_color p).isSome = true := by
  intro p h0 h100
  unfold get_color get_color_first_five get_color_branch
  split_ifs with h1 h2 h3 h4 h5 h6
  · exact ⟨by norm_num, by norm_num, by norm_num, rfl, rfl⟩
  · exact ⟨by norm_num, by norm_num, by norm_num, rfl, rfl⟩
  · exact ⟨by norm_num, by norm_num, by norm_num, rfl, rfl⟩
  · exact ⟨by norm_num, by norm_num, by norm_num, rfl, rfl⟩
  · exact ⟨by norm_num, by norm_num, by norm_num, rfl, rfl⟩
  · exact (scaled_in_first_five p h0 h100 h1 h2 h3 h4 h5).elim
  · exact (scaled_in_first_five p h0 h100 h1 h2 h3 h4 h5).elim

/-- Witness for C7 at percentage 42. -/
theorem C7_sixth_branch_never_taken_witness :
    get_color_branch 42 ≠ 6 ∧
    1 ≤ get_color_branch 42 ∧ get_color_branch 42 ≤ 5 ∧
    get_color 42 = get_color_first_five 42 ∧
    (get_color 42).isSome = true :=
  C7_sixth_branch_never_taken 42 (by norm_num) (by norm_num)

/-! ## get_mode (MonitoringApp.py lines 387-462)

`get_mode` is the button-gesture handler.  It is driven by real-time
polling of `button.is_pressed`; we embed it over an idealized timeline:
a gesture is a sequence of press episodes `(pressTime, releaseTime?)`
(with `none` meaning the button is never released), strictly ordered in
time, and the polling loops are given their limit semantics (a loop
`while time.time() - t0 <= W` observes a release/press that happens at
time `t` if and only if `t ≤ t0 + W`, matching the inclusive loop
guard).  The handler is entered with the button pressed, `t0` being the
time of the current press.

Side effects are recorded as an event list: each mode assignment in the
source prints a line and drives the status LED.  The assignment sites at
lines 425-429 (RDM), 437-441 (single click MS), 446-452 (release before
ORD_TIME), 454-458 (ORD) are guarded by `mode != X`; the assignment at
lines 430-434 (second press held past the window, before the recursive
call `get_mode(t1)`) is unguarded. -/

inductive GEvent where
  | msg (s : String)
  | ledOn
  | ledOff
  | ledBlink
deriving DecidableEq, Repr

structure GmState where
  mode : ℕ
  events : List GEvent
deriving DecidableEq, Repr

/-- `mode = RDM_MODE`, guarded (source lines 425-429). -/
def setRDM (st : GmState) : GmState :=
  if st.mode ≠ RDM_MODE then
    ⟨RDM_MODE, st.events ++ [GEvent.msg "RDM mode", GEvent.ledOn]⟩
  else st

/-- `mode = MS_MODE`, guarded (source lines 437-441 and 446-452). -/
def setMSGuarded (st : GmState) : GmState :=
  if st.mode ≠ MS_MODE then
    ⟨MS_MODE, st.events ++ [GEvent.msg "MS mode", GEvent.ledOff]⟩
  else st

/-- `mode = MS_MODE` with no guard (source lines 430-434, just before the
recursive `get_mode(t1)` call). -/
def setMSUnguarded (st : GmState) : GmState :=
  ⟨MS_MODE, st.events ++ [GEvent.msg "MS mode", GEvent.ledOff]⟩

/-- `mode = ORD_MODE`, guarded (source lines 454-458). -/
def setORD (st : GmState) : GmState :=
  if st.mode ≠ ORD_MODE then
    ⟨ORD_MODE, st.events ++ [GEvent.msg "ORD Mode", GEvent.ledBlink]⟩
  else st

/-- The body of `get_mode` for the current press episode `cur`, the
future press episodes `rest`, and gesture timer `t0`.  Mirrors the
nested polling loops of the source; the recursive call models
`get_mode(t1)` with the second press as the current episode. -/
def run_get_mode : (ℚ × Option ℚ) → List (ℚ × Option ℚ) → ℚ → GmState → GmState
  | (_, none), _, _, st => setORD st
  | (_, some r1), [], t0, st =>
      if r1 ≤ t0 + RDM_TIME then setMSGuarded st
      else if r1 ≤ t0 + ORD_TIME then setMSGuarded st
      else setORD st
  | (_, some r1), (s2, some r2) :: rest2, t0, st =>
      if r1 ≤ t0 + RDM_TIME then
        if s2 ≤ t0 + RDM_TIME then
          if r2 ≤ t0 + RDM_TIME then setRDM st
          else run_get_mode (s2, some r2) rest2 s2 (setMSUnguarded st)
        else setMSGuarded st
      else if r1 ≤ t0 + ORD_TIME then setMSGuarded st
      else setORD st
  | (_, some r1), (s2, none) :: rest2, t0, st =>
      if r1 ≤ t0 + RDM_TIME then
        if s2 ≤ t0 + RDM_TIME then
          run_get_mode (s2, none) rest2 s2 (setMSUnguarded st)
        else setMSGuarded st
      else if r1 ≤ t0 + ORD_TIME then setMSGuarded st
      else setORD st

/-- Entry point: `get_mode` is invoked by the press edge of the first
episode, so `t0` is that press time (source lines 407-410). -/
def gestureMode (presses : List (ℚ × Option ℚ)) (st : GmState) : GmState :=
  match presses with
  | [] => st
  | p :: rest => run_get_mode p rest p.1 st

/-- Claim C2: from any prior state, a press released at 0.3s with no
second press resolves MS; a press held to 2.5s resolves ORD; a press
released at 0.3s with a second press at 0.5s released at 0.8s resolves
RDM; a press held to 1.5s then released resolves MS. -/
theorem C2_gesture_scenarios :
    ∀ st : GmState,
      (gestureMode [(0, some (3/10))] st).mode = MS_MODE ∧
      (gestureMode [(0, some (5/2))] st).mode = ORD_MODE ∧
      (gestureMode [(0, some (3/10)), (1/2, some (4/5))] st).mode = RDM_MODE ∧
      (gestureMode [(0, some (3/2))] st).mode = MS_MODE := by
  intro st
  refine ⟨?_, ?_, ?_, ?_⟩
  · show (run_get_mode (0, some (3/10)) [] 0 st).mode = MS_MODE
    rw [run_get_mode]
    rw [if_pos (by unfold RDM_TIME; norm_num)]
    unfold setMSGuarded
    split_ifs with h
    · rfl
    · simpa using h
  · show (run_get_mode (0, some (5/2)) [] 0 st).mode = ORD_MODE
    rw [run_get_mode]
    rw [if_neg (by unfold RDM_TIME; norm_num), if_neg (by unfold ORD_TIME; norm_num)]
    unfold setORD
    split_ifs with h
    · rfl
    · simpa using h
  · show (run_get_mode (0, some (3/10)) [(1/2, some (4/5))] 0 st).mode = RDM_MODE
    rw [run_get_mode]
    rw [if_pos (by unfold RDM_TIME; norm_num)]
    rw [if_pos (by unfold RDM_TIME; norm_num), if_pos (by unfold RDM_TIME; norm_num)]
    unfold setRDM
    split_ifs with h
    · rfl
    · simpa using h
  · show (run_get_mode (0, some (3/2)) [] 0 st).mode = MS_MODE
    rw [run_get_mode]
    rw [if_neg (by unfold RDM_TIME; norm_num), if_pos (by unfold ORD_TIME; norm_num)]
    unfold setMSGuarded
    split_ifs with h
    · rfl
    · simpa using h

/-- Whether evaluation of `get_mode` reaches the unguarded mode
assignment at source lines 430-434 (second press within the window but
not released inside it, just before the recursive call). -/
def hitsUnguarded : (ℚ × Option ℚ) → List (ℚ × Option ℚ) → ℚ → Bool
  | (_, none), _, _ => false
  | (_, some _), [], _ => false
  | (_, some r1), (s2, some r2) :: _, t0 =>
      if r1 ≤ t0 + RDM_TIME then
        if s2 ≤ t0 + RDM_TIME then
          if r2 ≤ t0 + RDM_TIME then false else true
        else false
      else false
  | (_, some r1), (s2, none) :: _, t0 =>
      if r1 ≤ t0 + RDM_TIME then
        if s2 ≤ t0 + RDM_TIME then true else false
      else false

lemma setRDM_no_change (st : GmState) (h : (setRDM st).mode = st.mode) :
    (setRDM st).events = st.events := by
  unfold setRDM at *
  split_ifs at h ⊢ with hg
  · exact absurd h.symm hg
  · rfl

lemma setMSGuarded_no_change (st : GmState) (h : (setMSGuarded st).mode = st.mode) :
    (setMSGuarded st).events = st.events := by
  unfold setMSGuarded at *
  split_ifs at h ⊢ with hg
  · exact absurd h.symm hg
  · rfl

lemma setORD_no_change (st : GmState) (h : (setORD st).mode = st.mode) :
    (setORD st).events = st.events := by
  unfold setORD at *
  split_ifs at h ⊢ with hg
  · exact absurd h.symm hg
  · rfl

/-- Claim C4, counterexample: with MS already active, the gesture
"press at 0, release at 0.3, press again at 0.5, hold past the 1s
window (release at 1.6)" re-resolves MS — yet the unguarded assignment
before the recursive call prints "MS mode" and drives the LED, so
re-resolving the active mode is not free of side effects on every path. -/
theorem C4_counterexample :
    (gestureMode [(0, some (3/10)), (1/2, some (8/5))] ⟨MS_MODE, []⟩).mode = MS_MODE ∧
    (gestureMode [(0, some (3/10)), (1/2, some (8/5))] ⟨MS_MODE, []⟩).events =
      [GEvent.msg "MS mode", GEvent.ledOff] := by
  have h : gestureMode [(0, some (3/10)), (1/2, some (8/5))] ⟨MS_MODE, []⟩ =
      ⟨MS_MODE, [GEvent.msg "MS mode", GEvent.ledOff]⟩ := by
    show run_get_mode (0, some (3/10)) [(1/2, some (8/5))] 0 ⟨MS_MODE, []⟩ = _
    rw [run_get_mode]
    rw [if_pos (by unfold RDM_TIME; norm_num), if_pos (by unfold RDM_TIME; norm_num),
        if_neg (by unfold RDM_TIME; norm_num)]
    rw [run_get_mode]
    rw [if_neg (by unfold RDM_TIME; norm_num), if_pos (by unfold ORD_TIME; norm_num)]
    rfl
  rw [h]
  exact ⟨rfl, rfl⟩

/-- Claim C4 (amended): on every resolution path that does not pass
through the unguarded reset preceding the recursive re-evaluation
(i.e. whenever no second press is held past the RDM window), resolving
a gesture to the mode that is already active emits no console output
and no LED transition: if the resulting mode equals the starting mode,
the event list is unchanged. -/
theorem C4_no_side_effects_on_same_mode :
    ∀ (s1 : ℚ) (e1 : Option ℚ) (rest : List (ℚ × Option ℚ)) (t0 : ℚ) (st : GmState),
      hitsUnguarded (s1, e1) rest t0 = false →
      (run_get_mode (s1, e1) rest t0 st).mode = st.mode →
      (run_get_mode (s1, e1) rest t0 st).events = st.events := by
  intro s1 e1 rest t0 st hun hmode
  cases e1 with
  | none =>
      rw [run_get_mode] at hmode ⊢
      exact setORD_no_change st hmode
  | some r1 =>
      cases rest with
      | nil =>
          rw [run_get_mode] at hmode ⊢
          by_cases h1 : r1 ≤ t0 + RDM_TIME
          · rw [if_pos h1] at hmode ⊢
            exact setMSGuarded_no_change st hmode
          · rw [if_neg h1] at hmode ⊢
            by_cases h2 : r1 ≤ t0 + ORD_TIME
            · rw [if_pos h2] at hmode ⊢
              exact setMSGuarded_no_change st hmode
            · rw [if_neg h2] at hmode ⊢
              exact setORD_no_change st hmode
      | cons hd rest2 =>
          obtain ⟨s2, e2⟩ := hd
          cases e2 with
          | none =>
              rw [hitsUnguarded] at hun
              rw [run_get_mode] at hmode ⊢
              by_cases h1 : r1 ≤ t0 + RDM_TIME
              · rw [if_pos h1] at hun hmode ⊢
                by_cases h2 : s2 ≤ t0 + RDM_TIME
                · rw [if_pos h2] at hun
                  exact absurd hun (by simp)
                · rw [if_neg h2] at hmode ⊢
                  exact setMSGuarded_no_change st hmode
              · rw [if_neg h1] at hmode ⊢
                by_cases h2 : r1 ≤ t0 + ORD_TIME
                · rw [if_pos h2] at hmode ⊢
                  exact setMSGuarded_no_change st hmode
                · rw [if_neg h2] at hmode ⊢
                  exact setORD_no_change st hmode
          | some r2 =>
              rw [hitsUnguarded] at hun
              rw [run_get_mode] at hmode ⊢
              by_cases h1 : r1 ≤ t0 + RDM_TIME
              · rw [if_pos h1] at hun hmode ⊢
                by_cases h2 : s2 ≤ t0 + RDM_TIME
                · rw [if_pos h2] at hun hmode ⊢
                  by_cases h3 : r2 ≤ t0 + RDM_TIME
                  · rw [if_pos h3] at hmode ⊢
                    exact setRDM_no_change st hmode
                  · rw [if_neg h3] at hun
                    exact absurd hun (by simp)
                · rw [if_neg h2] at hmode ⊢
                  exact setMSGuarded_no_change st hmode
              · rw [if_neg h1] at hmode ⊢
                by_cases h2 : r1 ≤ t0 + ORD_TIME
                · rw [if_pos h2] at hmode ⊢
                  exact setMSGuarded_no_change st hmode
                · rw [if_neg h2] at hmode ⊢
                  exact setORD_no_change st hmode

/-- Witness for the amended C4: a single click starting from MS leaves
both mode and event list untouched. -/
theorem C4_no_side_effects_on_same_mode_witness :
    (run_get_mode (0, some (3/10)) [] 0 ⟨MS_MODE, []⟩).events =
      (GmState.mk MS_MODE []).events :=
  C4_no_side_effects_on_same_mode 0 (some (3/10)) [] 0 ⟨MS_MODE, []⟩
    (by rw [hitsUnguarded])
    (by rw [run_get_mode]; rw [if_pos (by unfold RDM_TIME; norm_num)]; rfl)

/-! ## run_mode recording/buffer logic (MonitoringApp.py lines 465-684)

We embed the per-session data path of `run_mode`.  A file is modelled as
a list of lines: the header (written once at session creation when
recording, line 510) and data rows.  A `Row` holds the timestamp and
the two value columns, `none` standing for the string 'NaN'.  The
fixed-width timestamp strings of the source sort lexicographically in
chronological order, so timestamps are modelled as rationals and
`sort_values(by=['Date and Time'])` as an insertion sort by timestamp.

One outer iteration of the sampling loop appends zero or more
potentiometer rows (inner wait loop, lines 526-562; Distance column
'NaN', line 554), then exactly one range row (lines 616-627;
Potentiometer column 'NaN', and Distance also 'NaN' when the reading
exceeds 100 cm, lines 620-621), and only then checks the buffer size
(line 636): if it exceeds BUFFER_SIZE the buffered rows are sorted by
timestamp and appended to the file without header, and the buffer is
cleared (lines 640-648).  Unlike the end-of-session flush (lines
656-660) and the interrupt flush (lines 675-678), the mid-session
flush never calls reset_index(), so `data = data[data.columns[1:]]`
at line 644 removes the 'Date and Time' column itself (not the index):
the rows it writes carry only the two numeric columns.  The other two
flush sites reset_index() first, so columns[1:] there removes the old
index and keeps all three columns. -/

structure Row where
  ts : ℚ
  pot : Option ℚ
  dist : Option ℚ
deriving DecidableEq, Repr

inductive FLine where
  | header
  | row (r : Row)
  | shortRow (pot dist : Option ℚ)
deriving DecidableEq, Repr

def rowLe (a b : Row) : Prop := a.ts ≤ b.ts

instance : DecidableRel rowLe := fun a b => inferInstanceAs (Decidable (a.ts ≤ b.ts))

instance : IsTotal Row rowLe := ⟨fun a b => le_total a.ts b.ts⟩

instance : IsTrans Row rowLe := ⟨fun _ _ _ h1 h2 => le_trans h1 h2⟩

/-- `data.sort_values(by=['Date and Time'])` (lines 642, 658, 676). -/
def sortByTs (l : List Row) : List Row := l.insertionSort rowLe

/-- A potentiometer row: Distance is 'NaN' (line 554). -/
def mkPotRow (ts v : ℚ) : Row := ⟨ts, some v, none⟩

/-- A range row: Potentiometer is 'NaN', and Distance is also 'NaN'
when the reading exceeds 100 cm (lines 620-622). -/
def mkRangeRow (ts d : ℚ) : Row := ⟨ts, none, if d > 100 then none else some d⟩

structure SessState where
  buffer : List Row
  file : List FLine
deriving DecidableEq, Repr

/-- The inner wait loop's potentiometer appends (lines 526-562): each
sample appends one row to the buffer when recording; there is no size
check here. -/
def potPhase (record : Bool) (pots : List (ℚ × ℚ)) (buf : List Row) : List Row :=
  pots.foldl (fun b p => if record then b ++ [mkPotRow p.1 p.2] else b) buf

/-- The once-per-iteration buffer-size check (lines 636-648).  The
rows are sorted by timestamp, but line 644 (`data = data[data.columns[1:]]`
with no preceding reset_index()) drops the 'Date and Time' column, so
the written lines carry only the Potentiometer % and Distance fields. -/
def flushCheck (buf : List Row) (file : List FLine) : SessState :=
  if buf.length > BUFFER_SIZE then
    ⟨[], file ++ (sortByTs buf).map (fun r => FLine.shortRow r.pot r.dist)⟩
  else
    ⟨buf, file⟩

/-- One outer iteration of the sampling loop: potentiometer appends,
then the range-row append (lines 616-627), then the flush check. -/
def sampleIter (record : Bool) (pots : List (ℚ × ℚ)) (rng : ℚ × ℚ)
    (st : SessState) : SessState :=
  flushCheck
    (if record then potPhase record pots st.buffer ++ [mkRangeRow rng.1 rng.2]
     else potPhase record pots st.buffer)
    st.file

/-- Session creation (lines 500-518): empty buffer; the header is
written to the file once, if recording (lines 509-510). -/
def initSession (record : Bool) : SessState :=
  ⟨[], if record then [FLine.header] else []⟩

def runSession (record : Bool) (iters : List (List (ℚ × ℚ) × (ℚ × ℚ))) : SessState :=
  iters.foldl (fun st it => sampleIter record it.1 it.2 st) (initSession record)

/-- Session end on mode change (lines 653-666): remaining buffered rows
are sorted and appended without header, if recording.  This site calls
reset_index() (line 659) before dropping columns[0], so the written
rows keep all three columns. -/
def endSession (record : Bool) (st : SessState) : SessState :=
  if record then ⟨[], st.file ++ (sortByTs st.buffer).map FLine.row⟩ else st

/-- The KeyboardInterrupt handler of run_mode (lines 669-684): if
recording, the buffered rows are sorted by timestamp and appended to
the session file before returning.  Like the end-of-session flush (and
unlike the mid-session one) it calls reset_index() (line 677) before
dropping columns[0], so the written rows keep all three columns.
Returns the final file contents. -/
def interruptFlush (record : Bool) (st : SessState) : List FLine :=
  if record then st.file ++ (sortByTs st.buffer).map FLine.row else st.file

/-- A 250-row buffer (exactly BUFFER_SIZE entries), as left by previous
iterations. -/
def c3buf : List Row := (List.range 250).map (fun i => mkPotRow (i : ℕ) 50)

def c3st : SessState := ⟨c3buf, [FLine.header]⟩

lemma sampleIter_record (pots : List (ℚ × ℚ)) (rng : ℚ × ℚ) (st : SessState) :
    sampleIter true pots rng st =
      flushCheck (potPhase true pots st.buffer ++ [mkRangeRow rng.1 rng.2]) st.file := by
  unfold sampleIter
  rw [if_pos rfl]

/-- Claim C3, counterexample: from a 250-entry buffer, a potentiometer
append inside the inner wait loop brings the buffer to 251 entries
without triggering any flush (the potentiometer phase only grows the
buffer; the size check is not reached there), and the single flush of
that iteration — after the range append — writes 252 sorted rows
(timestamp-stripped, per line 644), not 251. -/
theorem C3_counterexample :
    potPhase true [(250, 60)] c3buf = c3buf ++ [mkPotRow 250 60] ∧
    (potPhase true [(250, 60)] c3buf).length = BUFFER_SIZE + 1 ∧
    sampleIter true [(250, 60)] (251, 10) c3st =
      ⟨[], c3st.file ++
        (sortByTs (c3buf ++ [mkPotRow 250 60] ++ [mkRangeRow 251 10])).map
          (fun r => FLine.shortRow r.pot r.dist)⟩ ∧
    (sortByTs (c3buf ++ [mkPotRow 250 60] ++ [mkRangeRow 251 10])).length =
      BUFFER_SIZE + 2 := by
  have hpot : potPhase true [(250, 60)] c3buf = c3buf ++ [mkPotRow 250 60] := by
    simp [potPhase]
  have hlen : c3buf.length = 250 := by
    unfold c3buf
    rw [List.length_map, List.length_range]
  refine ⟨hpot, ?_, ?_, ?_⟩
  · rw [hpot]
    simp [hlen, BUFFER_SIZE]
  · rw [sampleIter_record]
    show flushCheck (potPhase true [(250, 60)] c3buf ++ [mkRangeRow 251 10]) _ = _
    rw [hpot]
    unfold flushCheck
    rw [if_pos (by simp [hlen, BUFFER_SIZE])]
  · unfold sortByTs
    rw [List.length_insertionSort]
    simp [hlen, BUFFER_SIZE]

/-- Claim C3 (amended): the flush check runs once per sampling
iteration, after the range append.  If the buffer then holds at most
BUFFER_SIZE (250) entries, nothing is written and the buffer is kept;
if it exceeds 250, exactly one flush sorts all buffered rows by
timestamp, strips the 'Date and Time' column (line 644, no
reset_index()), appends the resulting two-field rows to the file
without header, and empties the buffer.  In particular, when the range
append brings a 250-entry buffer to 251, exactly one flush of those
251 rows (the timestamp-stripped image of a sorted permutation of
them) occurs and the buffer is left empty. -/
theorem C3_flush_threshold (st : SessState) (pots : List (ℚ × ℚ)) (rng : ℚ × ℚ) :
    ((potPhase true pots st.buffer ++ [mkRangeRow rng.1 rng.2]).length ≤ BUFFER_SIZE →
      sampleIter true pots rng st =
        ⟨potPhase true pots st.buffer ++ [mkRangeRow rng.1 rng.2], st.file⟩) ∧
    ((potPhase true pots st.buffer ++ [mkRangeRow rng.1 rng.2]).length > BUFFER_SIZE →
      sampleIter true pots rng st =
        ⟨[], st.file ++
          (sortByTs (potPhase true pots st.buffer ++ [mkRangeRow rng.1 rng.2])).map
            (fun r => FLine.shortRow r.pot r.dist)⟩) ∧
    (st.buffer.length = BUFFER_SIZE → pots = [] →
      (sampleIter true pots rng st).buffer = [] ∧
      (sampleIter true pots rng st).file =
        st.file ++ (sortByTs (st.buffer ++ [mkRangeRow rng.1 rng.2])).map
          (fun r => FLine.shortRow r.pot r.dist) ∧
      (sortByTs (st.buffer ++ [mkRangeRow rng.1 rng.2])).length = BUFFER_SIZE + 1 ∧
      (sortByTs (st.buffer ++ [mkRangeRow rng.1 rng.2])).Perm
        (st.buffer ++ [mkRangeRow rng.1 rng.2]) ∧
      List.Sorted rowLe (sortByTs (st.buffer ++ [mkRangeRow rng.1 rng.2]))) := by
  refine ⟨?_, ?_, ?_⟩
  · intro hle
    rw [sampleIter_record]
    unfold flushCheck
    rw [if_neg (by omega)]
  · intro hgt
    rw [sampleIter_record]
    unfold flushCheck
    rw [if_pos hgt]
  · intro h250 hpots
    subst hpots
    have hpot : potPhase true [] st.buffer = st.buffer := rfl
    have hgt : (potPhase true [] st.buffer ++ [mkRangeRow rng.1 rng.2]).length >
        BUFFER_SIZE := by
      rw [hpot]
      simp [h250]
    have := (sampleIter_record [] rng st)
    rw [this]
    unfold flushCheck
    rw [hpot] at hgt ⊢
    rw [if_pos hgt]
    refine ⟨rfl, rfl, ?_, ?_, ?_⟩
    · unfold sortByTs
      rw [List.length_insertionSort]
      simp [h250]
    · exact List.perm_insertionSort rowLe _
    · exact List.sorted_insertionSort rowLe _

/-- Witness for the amended C3: the 250-entry buffer `c3buf` plus one
range reading flushes exactly 251 sorted, timestamp-stripped rows and
empties the buffer. -/
theorem C3_flush_threshold_witness :
    (sampleIter true [] (251, 10) c3st).buffer = [] ∧
    (sampleIter true [] (251, 10) c3st).file =
      c3st.file ++ (sortByTs (c3st.buffer ++ [mkRangeRow 251 10])).map
        (fun r => FLine.shortRow r.pot r.dist) ∧
    (sortByTs (c3st.buffer ++ [mkRangeRow 251 10])).length = BUFFER_SIZE + 1 ∧
    (sortByTs (c3st.buffer ++ [mkRangeRow 251 10])).Perm
      (c3st.buffer ++ [mkRangeRow 251 10]) ∧
    List.Sorted rowLe (sortByTs (c3st.buffer ++ [mkRangeRow 251 10])) :=
  (C3_flush_threshold c3st [] (251, 10)).2.2
    (by
      show c3buf.length = BUFFER_SIZE
      unfold c3buf BUFFER_SIZE
      rw [List.length_map, List.length_range])
    rfl

/-- Exactly one of the two numeric columns is populated (the other being
'NaN'), as claimed for every data row. -/
def exactlyOnePopulated (r : Row) : Prop :=
  (r.pot.isSome ∧ r.dist = none) ∨ (r.pot = none ∧ r.dist.isSome)

/-- At most one of the two numeric columns is populated. -/
def rowAbsentOk (r : Row) : Prop := r.pot = none ∨ r.dist = none

/-- A line that may legitimately follow the header: a full three-column
row (end-of-session or interrupt flush) or a two-column row written by
the mid-session flush (line 644 drops the timestamp), in either case
with at most one numeric field populated; never another header. -/
def dataLineOk : FLine → Prop
  | FLine.header => False
  | FLine.row r => r.pot = none ∨ r.dist = none
  | FLine.shortRow p d => p = none ∨ d = none

/-- The session file is the header followed only by data lines. -/
def fileShape (f : List FLine) : Prop :=
  ∃ tail : List FLine, f = FLine.header :: tail ∧ ∀ li ∈ tail, dataLineOk li

/-- Claim C5, counterexample: (a) a range reading of 150 cm (beyond the
100 cm cut-off of lines 620-621) produces a data row whose columns are
both 'NaN' — neither numeric field is populated, contradicting
"exactly one"; (b) the mid-session flush of a full buffer appends a
non-empty block of two-field lines (line 644 drops the 'Date and Time'
column), contradicting "carries those three columns". -/
theorem C5_counterexample :
    (endSession true (sampleIter true [] (0, 150) (initSession true))).file =
      [FLine.header, FLine.row ⟨0, none, none⟩] ∧
    ¬ exactlyOnePopulated ⟨0, none, none⟩ ∧
    (sampleIter true [] (251, 10) c3st).file =
      c3st.file ++ (sortByTs (c3buf ++ [mkRangeRow 251 10])).map
        (fun r => FLine.shortRow r.pot r.dist) ∧
    (sortByTs (c3buf ++ [mkRangeRow 251 10])).map
      (fun r => FLine.shortRow r.pot r.dist) ≠ [] := by
  have hlen : c3buf.length = 250 := by
    unfold c3buf
    rw [List.length_map, List.length_range]
  refine ⟨?_, ?_, ?_, ?_⟩
  · rw [sampleIter_record]
    rw [show potPhase true [] (initSession true).buffer ++ [mkRangeRow 0 150] =
        [Row.mk 0 none none] from by
      rw [show mkRangeRow 0 150 = Row.mk 0 none none from by
        unfold mkRangeRow
        rw [if_pos (by norm_num)]]
      rfl]
    unfold flushCheck
    rw [if_neg (by simp [BUFFER_SIZE])]
    unfold endSession
    rw [if_pos rfl]
    rfl
  · unfold exactlyOnePopulated
    simp
  · have key : sampleIter true [] (251, 10) c3st =
        ⟨[], c3st.file ++ (sortByTs (c3buf ++ [mkRangeRow 251 10])).map
          (fun r => FLine.shortRow r.pot r.dist)⟩ := by
      rw [sampleIter_record]
      show flushCheck (potPhase true [] c3buf ++ [mkRangeRow 251 10]) _ = _
      unfold flushCheck
      rw [if_pos (by simp [potPhase, hlen, BUFFER_SIZE])]
      rfl
    rw [key]
  · have hlen251 : ((sortByTs (c3buf ++ [mkRangeRow 251 10])).map
        (fun r => FLine.shortRow r.pot r.dist)).length = 251 := by
      rw [List.length_map]
      unfold sortByTs
      rw [List.length_insertionSort, List.length_append, hlen]
      rfl
    intro h
    rw [h] at hlen251
    exact absurd hlen251 (by simp)

lemma potPhase_pred (P : Row → Prop) (hP : ∀ ts v, P (mkPotRow ts v)) :
    ∀ (pots : List (ℚ × ℚ)) (buf : List Row), (∀ r ∈ buf, P r) →
      ∀ r ∈ potPhase true pots buf, P r := by
  intro pots
  induction pots with
  | nil => exact fun buf h r hr => h r hr
  | cons p ps ih =>
      intro buf h r hr
      have hstep : potPhase true (p :: ps) buf = potPhase true ps (buf ++ [mkPotRow p.1 p.2]) := by
        unfold potPhase
        simp
      rw [hstep] at hr
      refine ih (buf ++ [mkPotRow p.1 p.2]) ?_ r hr
      intro x hx
      rcases List.mem_append.mp hx with hx | hx
      · exact h x hx
      · have := List.mem_singleton.mp hx
        subst this
        exact hP p.1 p.2

lemma sampleIter_preserves (it : List (ℚ × ℚ) × (ℚ × ℚ)) (st : SessState)
    (hb : ∀ r ∈ st.buffer, rowAbsentOk r) (hf : fileShape st.file) :
    (∀ r ∈ (sampleIter true it.1 it.2 st).buffer, rowAbsentOk r) ∧
      fileShape (sampleIter true it.1 it.2 st).file := by
  rw [sampleIter_record]
  have hball : ∀ r ∈ potPhase true it.1 st.buffer ++ [mkRangeRow it.2.1 it.2.2],
      rowAbsentOk r := by
    intro r hr
    rcases List.mem_append.mp hr with h | h
    · exact potPhase_pred rowAbsentOk (fun ts v => Or.inr rfl) it.1 st.buffer hb r h
    · have := List.mem_singleton.mp h
      subst this
      exact Or.inl rfl
  unfold flushCheck
  split_ifs with hsz
  · constructor
    · intro r hr
      exact absurd hr (List.not_mem_nil r)
    · obtain ⟨tail, hfe, htail⟩ := hf
      refine ⟨tail ++
        (sortByTs (potPhase true it.1 st.buffer ++ [mkRangeRow it.2.1 it.2.2])).map
          (fun r => FLine.shortRow r.pot r.dist), ?_, ?_⟩
      · rw [hfe]
        rfl
      · intro li hli
        rcases List.mem_append.mp hli with h | h
        · exact htail li h
        · obtain ⟨r, hrmem, rfl⟩ := List.mem_map.mp h
          exact hball r ((List.perm_insertionSort rowLe _).mem_iff.mp hrmem)
  · exact ⟨hball, hf⟩

lemma sessionFold_preserves (iters : List (List (ℚ × ℚ) × (ℚ × ℚ))) :
    ∀ st : SessState, (∀ r ∈ st.buffer, rowAbsentOk r) → fileShape st.file →
      (∀ r ∈ (iters.foldl (fun s it => sampleIter true it.1 it.2 s) st).buffer,
        rowAbsentOk r) ∧
      fileShape (iters.foldl (fun s it => sampleIter true it.1 it.2 s) st).file := by
  induction iters with
  | nil => exact fun st hb hf => ⟨hb, hf⟩
  | cons it its ih =>
      intro st hb hf
      have step := sampleIter_preserves it st hb hf
      exact ih _ step.1 step.2

/-- Claim C5 (amended): for every recording session, the file is the
header line — written exactly once, at session creation — followed
exclusively by data lines.  A data line written at session end carries
all three columns; a data line written by the mid-session flush
carries only the two numeric columns (line 644 drops 'Date and Time');
and in either case at most one of the two numeric fields is populated.
("Exactly one" fails: range rows beyond 100 cm have both columns
'NaN'; "three columns" fails for mid-session flush rows — see the
counterexample.) -/
theorem C5_header_once_rows_at_most_one :
    ∀ iters : List (List (ℚ × ℚ) × (ℚ × ℚ)), ∃ tail : List FLine,
      (endSession true (runSession true iters)).file = FLine.header :: tail ∧
      (∀ r : Row, FLine.row r ∈ tail → r.pot = none ∨ r.dist = none) ∧
      (∀ p d : Option ℚ, FLine.shortRow p d ∈ tail → p = none ∨ d = none) ∧
      FLine.header ∉ tail ∧
      (endSession true (runSession true iters)).file.count FLine.header = 1 := by
  intro iters
  have hinit : fileShape (initSession true).file :=
    ⟨[], rfl, fun li hli => absurd hli (List.not_mem_nil li)⟩
  have hrun := sessionFold_preserves iters (initSession true)
    (by intro r hr; cases hr) hinit
  obtain ⟨tail, hfe, htail⟩ := hrun.2
  have hend : (endSession true (runSession true iters)).file =
      FLine.header ::
        (tail ++ (sortByTs (runSession true iters).buffer).map FLine.row) := by
    unfold endSession
    rw [if_pos rfl]
    show (runSession true iters).file ++ _ = _
    rw [show (runSession true iters).file = FLine.header :: tail from hfe]
    rfl
  have htail2 : ∀ li ∈ tail ++ (sortByTs (runSession true iters).buffer).map FLine.row,
      dataLineOk li := by
    intro li hli
    rcases List.mem_append.mp hli with h | h
    · exact htail li h
    · obtain ⟨r, hrmem, rfl⟩ := List.mem_map.mp h
      exact hrun.1 r ((List.perm_insertionSort rowLe _).mem_iff.mp hrmem)
  refine ⟨tail ++ (sortByTs (runSession true iters).buffer).map FLine.row,
    hend, ?_, ?_, ?_, ?_⟩
  · intro r hr
    exact htail2 _ hr
  · intro p d hpd
    exact htail2 _ hpd
  · intro hmem
    exact htail2 _ hmem
  · rw [hend, List.count_cons_self]
    have hzero : (tail ++ (sortByTs (runSession true iters).buffer).map FLine.row).count
        FLine.header = 0 :=
      List.count_eq_zero.mpr (fun hmem => htail2 _ hmem)
    rw [hzero]

/-- Witness for C5 at a one-iteration session (one potentiometer sample,
one range sample). -/
theorem C5_header_once_rows_at_most_one_witness :
    ∃ tail : List FLine,
      (endSession true (runSession true [([(1, 50)], (2, 10))])).file =
        FLine.header :: tail ∧
      (∀ r : Row, FLine.row r ∈ tail → r.pot = none ∨ r.dist = none) ∧
      (∀ p d : Option ℚ, FLine.shortRow p d ∈ tail → p = none ∨ d = none) ∧
      FLine.header ∉ tail ∧
      (endSession true (runSession true [([(1, 50)], (2, 10))])).file.count
        FLine.header = 1 :=
  C5_header_once_rows_at_most_one [([(1, 50)], (2, 10))]

/-- Claim C9: the KeyboardInterrupt handler of the sampling loop, when a
recording session is active, appends every buffered reading to the
session file, sorted by timestamp, before returning — no buffered data
is dropped. -/
theorem C9_interrupt_flushes_buffer (st : SessState) :
    interruptFlush true st = st.file ++ (sortByTs st.buffer).map FLine.row ∧
    (sortByTs st.buffer).Perm st.buffer ∧
    List.Sorted rowLe (sortByTs st.buffer) ∧
    ∀ r ∈ st.buffer, FLine.row r ∈ interruptFlush true st := by
  have h1 : interruptFlush true st = st.file ++ (sortByTs st.buffer).map FLine.row := by
    unfold interruptFlush
    rw [if_pos rfl]
  refine ⟨h1, List.perm_insertionSort rowLe st.buffer,
    List.sorted_insertionSort rowLe st.buffer, ?_⟩
  intro r hr
  rw [h1]
  refine List.mem_append.mpr (Or.inr ?_)
  exact List.mem_map.mpr ⟨r, (List.perm_insertionSort rowLe st.buffer).mem_iff.mpr hr, rfl⟩

/-- Witness for C9: a buffered potentiometer reading survives the
interrupt flush. -/
theorem C9_interrupt_flushes_buffer_witness :
    FLine.row ⟨2, some 30, none⟩ ∈
      interruptFlush true ⟨[⟨2, some 30, none⟩, ⟨1, none, some 7⟩], [FLine.header]⟩ :=
  (C9_interrupt_flushes_buffer
    ⟨[⟨2, some 30, none⟩, ⟨1, none, some 7⟩], [FLine.header]⟩).2.2.2
    ⟨2, some 30, none⟩ (List.mem_cons_self _ _)

/-! ## sonic busy-wait loops (MonitoringApp.py lines 155-191)

`sonic()` snapshots the shared mode (`old_mode = mode`, line 157) and
then spins: an outer loop `while pulse_duration <= 0 and old_mode ==
mode`, an inner loop polling the echo line low (saving `pulse_start`),
an inner loop polling it high (saving `pulse_end`), then the duration
computation.  Every loop guard re-checks `old_mode == mode`.

We embed this as a step machine polled once per tick `n`: `echo n` is
the echo line, `modeEq n` whether the shared mode still equals the
snapshot, `clock n` the current time.  One tick evaluates one loop
guard (and its body when taken), exactly in source order; `finished`
is reaching the code after the loops. -/

inductive Phase where
  | outerCheck
  | innerLow
  | innerHigh
  | durCalc
  | finished
deriving DecidableEq, Repr

structure SonicSt where
  phase : Phase
  pulse_start : ℚ
  pulse_end : ℚ
  pulse_duration : ℚ
deriving DecidableEq, Repr

def sonicStep (echo modeEq : ℕ → Bool) (clock : ℕ → ℚ) (n : ℕ) (s : SonicSt) : SonicSt :=
  match s.phase with
  | Phase.outerCheck =>
      if s.pulse_duration ≤ 0 ∧ modeEq n = true then { s with phase := Phase.innerLow }
      else { s with phase := Phase.finished }
  | Phase.innerLow =>
      if echo n = false ∧ modeEq n = true then { s with pulse_start := clock n }
      else { s with phase := Phase.innerHigh }
  | Phase.innerHigh =>
      if echo n = true ∧ modeEq n = true then { s with pulse_end := clock n }
      else { s with phase := Phase.durCalc }
  | Phase.durCalc =>
      { s with pulse_duration := (s.pulse_end - s.pulse_start) * 1000000,
               phase := Phase.outerCheck }
  | Phase.finished => s

/-- Initial state (lines 165-167): `pulse_start = pulse_end = 0`,
`pulse_duration = -1`, about to evaluate the outer guard. -/
def sonicInit : SonicSt := ⟨Phase.outerCheck, 0, 0, -1⟩

def sonicRun (echo modeEq : ℕ → Bool) (clock : ℕ → ℚ) : ℕ → SonicSt
  | 0 => sonicInit
  | n + 1 => sonicStep echo modeEq clock n (sonicRun echo modeEq clock n)

def phaseRank : Phase → ℕ
  | Phase.finished => 0
  | Phase.outerCheck => 1
  | Phase.durCalc => 2
  | Phase.innerHigh => 3
  | Phase.innerLow => 4

lemma sonicStep_of_finished (echo modeEq : ℕ → Bool) (clock : ℕ → ℚ) (n : ℕ)
    (s : SonicSt) (h : s.phase = Phase.finished) :
    sonicStep echo modeEq clock n s = s := by
  unfold sonicStep
  rw [h]

lemma phaseRank_le_four (p : Phase) : phaseRank p ≤ 4 := by
  cases p <;> simp [phaseRank]

lemma phaseRank_eq_zero_iff (p : Phase) : phaseRank p = 0 ↔ p = Phase.finished := by
  cases p <;> simp [phaseRank]

/-- Once the shared mode differs from the snapshot, each tick leaves the
pulse bookkeeping untouched and strictly descends the loop structure. -/
lemma sonicStep_abort (echo modeEq : ℕ → Bool) (clock : ℕ → ℚ) (n : ℕ)
    (s : SonicSt) (hm : modeEq n = false) :
    phaseRank (sonicStep echo modeEq clock n s).phase ≤ phaseRank s.phase - 1 ∧
    (sonicStep echo modeEq clock n s).pulse_start = s.pulse_start ∧
    (sonicStep echo modeEq clock n s).pulse_end = s.pulse_end := by
  have hnot : ∀ P : Prop, ¬(P ∧ modeEq n = true) := by
    intro P hP
    rw [hm] at hP
    exact Bool.noConfusion hP.2
  obtain ⟨ph, ps, pe, pd⟩ := s
  cases ph
  · simp only [sonicStep]
    rw [if_neg (hnot _)]
    exact ⟨by simp [phaseRank], rfl, rfl⟩
  · simp only [sonicStep]
    rw [if_neg (hnot _)]
    exact ⟨by simp [phaseRank], rfl, rfl⟩
  · simp only [sonicStep]
    rw [if_neg (hnot _)]
    exact ⟨by simp [phaseRank], rfl, rfl⟩
  · simp only [sonicStep]
    simp [phaseRank]
  · simp only [sonicStep]
    simp [phaseRank]

lemma sonicRun_rank (echo modeEq : ℕ → Bool) (clock : ℕ → ℚ) (k : ℕ)
    (hm : ∀ j, k ≤ j → modeEq j = false) :
    ∀ i, phaseRank (sonicRun echo modeEq clock (k + i)).phase ≤ 4 - i := by
  intro i
  induction i with
  | zero => simpa using phaseRank_le_four _
  | succ i ih =>
      have hstep := sonicStep_abort echo modeEq clock (k + i)
        (sonicRun echo modeEq clock (k + i)) (hm (k + i) (by omega))
      have hrw : sonicRun echo modeEq clock (k + (i + 1)) =
          sonicStep echo modeEq clock (k + i) (sonicRun echo modeEq clock (k + i)) := by
        rw [show k + (i + 1) = (k + i) + 1 from by omega]
        rw [sonicRun]
      rw [hrw]
      omega

/-- Claim C8: every spin iteration of sonic() re-checks the shared mode
against the entry snapshot; once the mode differs from it (from tick k
on), no iteration updates the in-flight pulse measurement any more, and
all busy-wait loops and the enclosing duration loop terminate within
four guard evaluations — the measurement is never continued after a
mode change. -/
theorem C8_busy_wait_aborts_on_mode_change (echo modeEq : ℕ → Bool) (clock : ℕ → ℚ)
    (k : ℕ) (hm : ∀ j, k ≤ j → modeEq j = false) :
    (∀ n, k + 4 ≤ n → (sonicRun echo modeEq clock n).phase = Phase.finished) ∧
    (∀ j, k ≤ j →
      (sonicRun echo modeEq clock (j + 1)).pulse_start =
        (sonicRun echo modeEq clock j).pulse_start ∧
      (sonicRun echo modeEq clock (j + 1)).pulse_end =
        (sonicRun echo modeEq clock j).pulse_end) := by
  constructor
  · have base : (sonicRun echo modeEq clock (k + 4)).phase = Phase.finished := by
      have := sonicRun_rank echo modeEq clock k hm 4
      exact (phaseRank_eq_zero_iff _).mp (by omega)
    have all : ∀ m : ℕ, (sonicRun echo modeEq clock (k + 4 + m)).phase = Phase.finished := by
      intro m
      induction m with
      | zero => exact base
      | succ m ih =>
          show (sonicStep echo modeEq clock (k + 4 + m)
            (sonicRun echo modeEq clock (k + 4 + m))).phase = Phase.finished
          rw [sonicStep_of_finished echo modeEq clock (k + 4 + m) _ ih]
          exact ih
    intro n hn
    have : n = k + 4 + (n - (k + 4)) := by omega
    rw [this]
    exact all (n - (k + 4))
  · intro j hj
    have hstep := sonicStep_abort echo modeEq clock j
      (sonicRun echo modeEq clock j) (hm j hj)
    exact ⟨hstep.2.1, hstep.2.2⟩

/-- Witness for C8: with the mode changed from tick 0 on, the machine is
finished by tick 4 and tick 0 does not touch the pulse fields. -/
theorem C8_busy_wait_aborts_on_mode_change_witness :
    (sonicRun (fun _ => false) (fun _ => false) (fun _ => 0) 4).phase = Phase.finished ∧
    (sonicRun (fun _ => false) (fun _ => false) (fun _ => 0) 1).pulse_start =
      (sonicRun (fun _ => false) (fun _ => false) (fun _ => 0) 0).pulse_start :=
  ⟨(C8_busy_wait_aborts_on_mode_change (fun _ => false) (fun _ => false) (fun _ => 0) 0
      (fun _ _ => rfl)).1 4 (Nat.le_refl 4),
   ((C8_busy_wait_aborts_on_mode_change (fun _ => false) (fun _ => false) (fun _ => 0) 0
      (fun _ _ => rfl)).2 0 (Nat.zero_le 0)).1⟩
